import Mathlib

/-!
Verification of the django-manus agent core against its specification.

Part 1 embeds the sandbox path canonicalization:
  * `DaytonaSandboxClient._map_to_workspace` (app/sandbox/client.py), and
  * `SandboxFileOperator._to_sandbox_path` (app/tool/file_operators.py).
Python strings are modelled as lists of characters.  The host is taken to be
POSIX, so `pathlib.Path(p).is_absolute()` holds exactly for strings beginning
with a slash; under that reading the "host absolute path" branch of both
functions is unreachable (any string beginning with '/' is consumed by an
earlier branch), and it is embedded with `pathlib`-style semantics for
`relative_to`/`name`.
-/

namespace Manus

/-- Paths are modelled as Python strings, i.e. lists of characters. -/
abbrev Path := List Char

/-- Python `s.replace("\\", "/")`. -/
def replaceBS (p : Path) : Path := p.map (fun c => if c = '\\' then '/' else c)

/-- Python `s.lstrip("/")`: drop every leading slash. -/
def lstripSlash (p : Path) : Path := p.dropWhile (fun c => c = '/')

/-- Python `s.rstrip("/")`: drop every trailing slash. -/
def rstripSlash (p : Path) : Path := (p.reverse.dropWhile (fun c => c = '/')).reverse

/-- `hasPfx s t` is Python `s.startswith(t)`. -/
def hasPfx : Path → Path → Bool
  | _, [] => true
  | [], _ :: _ => false
  | c :: s, d :: t => c == d && hasPfx s t

/-- Python `pathlib.PurePath(p).name`: the component after the last slash. -/
def basename (p : Path) : Path := (p.reverse.takeWhile (fun c => c ≠ '/')).reverse

/-- The work-dir default `"/home/daytona/workspace"` used by both functions. -/
def defaultWorkDir : Path := "/home/daytona/workspace".data

/-- The legacy canonical root `"/workspace"` rewritten by both functions. -/
def legacyRoot : Path := "/workspace".data

/-- Work-dir resolution of `DaytonaSandboxClient._map_to_workspace`:
`(self._work_dir or (config.sandbox.work_dir if config.sandbox else D) or D).rstrip("/")`.
A falsy (empty) configured value falls back to the default. -/
def clientWorkDir (workDirCfg : Path) : Path :=
  rstripSlash (if workDirCfg = [] then defaultWorkDir else workDirCfg)

/-- `DaytonaSandboxClient._map_to_workspace` (app/sandbox/client.py:103-149),
as a pure function of the configured `work_dir`, `config.workspace_root` and
the incoming path. -/
def map_to_workspace (workDirCfg wsRoot p : Path) : Path :=
  -- `if not path: return path`
  if p = [] then p
  -- Already in sandbox workspace
  else if replaceBS p = clientWorkDir workDirCfg ∨
      hasPfx (replaceBS p) (clientWorkDir workDirCfg ++ ['/']) then replaceBS p
  -- Legacy paths like '/workspace/...': rewrite to configured work_dir
  else if replaceBS p = legacyRoot ∨ hasPfx (replaceBS p) (legacyRoot ++ ['/']) then
    (if lstripSlash ((replaceBS p).drop legacyRoot.length) = [] then clientWorkDir workDirCfg
     else clientWorkDir workDirCfg ++ '/' :: lstripSlash ((replaceBS p).drop legacyRoot.length))
  -- POSIX absolute but outside work_dir -> relocate into work_dir
  else if hasPfx (replaceBS p) ['/'] then
    clientWorkDir workDirCfg ++ '/' :: lstripSlash (replaceBS p)
  -- Host absolute paths: on a POSIX host `Path(p).is_absolute()` iff p starts
  -- with '/', which the branch above already consumed, so this is dead code.
  else if hasPfx p ['/'] then
    (if wsRoot ≠ [] ∧ (p = wsRoot ∨ hasPfx p (wsRoot ++ ['/'])) then
       clientWorkDir workDirCfg ++ '/' :: replaceBS (lstripSlash (p.drop wsRoot.length))
     else clientWorkDir workDirCfg ++ '/' :: basename p)
  -- Relative path -> treat as under work_dir
  else clientWorkDir workDirCfg ++ '/' :: replaceBS p

/-- Work-dir resolution of `SandboxFileOperator._to_sandbox_path`:
`(config.sandbox.work_dir if config.sandbox else D).replace("\\", "/").rstrip("/")`.
Unlike the client, backslashes are normalized and there is no fallback for an
empty configured value. -/
def fileopWorkDir (workDirCfg : Path) : Path := rstripSlash (replaceBS workDirCfg)

/-- `SandboxFileOperator._to_sandbox_path` (app/tool/file_operators.py:43-90),
as a pure function of the configured `work_dir`, `config.workspace_root` and
the incoming path.  Note: no guard for the empty path. -/
def to_sandbox_path (workDirCfg wsRoot p : Path) : Path :=
  -- Already in sandbox work_dir
  if replaceBS p = fileopWorkDir workDirCfg ∨
      hasPfx (replaceBS p) (fileopWorkDir workDirCfg ++ ['/']) then replaceBS p
  -- Legacy canonical '/workspace' -> rewrite to configured work_dir
  else if replaceBS p = legacyRoot ∨ hasPfx (replaceBS p) (legacyRoot ++ ['/']) then
    (if lstripSlash ((replaceBS p).drop legacyRoot.length) = [] then fileopWorkDir workDirCfg
     else fileopWorkDir workDirCfg ++ '/' :: lstripSlash ((replaceBS p).drop legacyRoot.length))
  -- Any other absolute posix path -> treat as inside work_dir
  else if hasPfx (replaceBS p) ['/'] then
    fileopWorkDir workDirCfg ++ '/' :: lstripSlash (replaceBS p)
  -- Absolute host paths -> map under work_dir (dead on a POSIX host, as above);
  -- the guard is a plain string-prefix test, a failing `relative_to` falls
  -- through to the relative case.
  else if hasPfx p ['/'] then
    (if wsRoot ≠ [] ∧ hasPfx p wsRoot then
       (if p = wsRoot ∨ hasPfx p (wsRoot ++ ['/']) then
          fileopWorkDir workDirCfg ++ '/' :: replaceBS (lstripSlash (p.drop wsRoot.length))
        else fileopWorkDir workDirCfg ++ '/' :: replaceBS p)
     else fileopWorkDir workDirCfg ++ '/' :: basename p)
  -- Relative path -> under work_dir
  else fileopWorkDir workDirCfg ++ '/' :: replaceBS p

/-!
## Part 2: the agent core

Embeds `BaseAgent` (app/agent/base.py) and `ToolCallAgent` (app/agent/toolcall.py).
The conversation schema (`app.schema`: `Message`, `Memory`, `AgentState`,
`ToolCall`) and the tool registry base classes (`app.tool.base`,
`app.tool.tool_collection`) are not among the sources; they are modelled from
the spec (§3 data model, §4.4 registry, §6 tool contract) where noted.
External collaborators with no effect on the modelled state — the notification
sink, the Daytona SDK, logging — are omitted, as §6 prescribes (fire-and-forget,
failures swallowed).  The optional message-persistence hook is modelled by a
boolean `persistHook` (hook configured?) plus `persistLog`, the sequence of
arguments the hook has been invoked with.
-/

/-- Modelled from the spec: `app.schema.AgentState` is absent from the sources;
§3 gives the enum {IDLE, RUNNING, FINISHED, ERROR}. -/
inductive AgentState
  | IDLE
  | RUNNING
  | FINISHED
  | ERROR
deriving DecidableEq, Repr

/-- String form of a state, for the invalid-state error message of `run`. -/
def state_str : AgentState → String
  | AgentState.IDLE => "AgentState.IDLE"
  | AgentState.RUNNING => "AgentState.RUNNING"
  | AgentState.FINISHED => "AgentState.FINISHED"
  | AgentState.ERROR => "AgentState.ERROR"

/-- Modelled from the spec: `app.schema.ToolChoice` (absent from the sources);
§4.2 gives the three tool-choice policies AUTO / REQUIRED / NONE. -/
inductive ToolChoice
  | NONE
  | AUTO
  | REQUIRED
deriving DecidableEq, Repr

/-- Modelled from the spec: the function part of a `ToolCall` — name plus
arguments as opaque JSON text (§3). -/
structure ToolFunction where
  name : String
  arguments : String
deriving DecidableEq, Repr

/-- Modelled from the spec: `app.schema.ToolCall` — {id, function} (§3). -/
structure ToolCall where
  id : String
  function : ToolFunction
deriving DecidableEq, Repr

/-- Modelled from the spec: `app.schema.Message` (§3): role, optional content,
tool_calls, tool_call_id + name for tool messages, optional base64 image. -/
structure Message where
  role : String
  content : Option String
  tool_calls : List ToolCall
  tool_call_id : Option String
  name : Option String
  base64_image : Option String
deriving DecidableEq, Repr

/-- Modelled from the spec: `Message.user_message`. -/
def Message.user_message (content : String) (img : Option String) : Message :=
  ⟨"user", some content, [], none, none, img⟩

/-- Modelled from the spec: `Message.system_message`. -/
def Message.system_message (content : String) (img : Option String) : Message :=
  ⟨"system", some content, [], none, none, img⟩

/-- Modelled from the spec: `Message.assistant_message`. -/
def Message.assistant_message (content : String) (img : Option String) : Message :=
  ⟨"assistant", some content, [], none, none, img⟩

/-- Modelled from the spec: `Message.tool_message` carries name and
tool_call_id linking the result to the originating call. -/
def Message.tool_message (content : String) (img tool_call_id name : Option String) : Message :=
  ⟨"tool", some content, [], tool_call_id, name, img⟩

/-- Modelled from the spec: `Message.from_tool_calls` builds an assistant
message carrying the requested tool calls. -/
def Message.from_tool_calls (tcs : List ToolCall) (content : String) (img : Option String) : Message :=
  ⟨"assistant", some content, tcs, none, none, img⟩

/-- Modelled from the spec: `app.schema.Memory` (§3) — an ordered bounded log;
oldest entries are evicted once the configured maximum is exceeded (FIFO trim
from the front). -/
structure Memory where
  messages : List Message
  max_messages : Nat
deriving DecidableEq, Repr

/-- Modelled from the spec: append a message, trimming from the front when the
bound is exceeded. -/
def Memory.add_message (m : Memory) (msg : Message) : Memory :=
  { m with messages :=
      if m.max_messages < (m.messages ++ [msg]).length
      then (m.messages ++ [msg]).drop ((m.messages ++ [msg]).length - m.max_messages)
      else m.messages ++ [msg] }

/-- The role-specific `**kwargs` that `update_memory` receives and forwards to
the persistence hook: `tool_call_id`/`name` for tool messages, `tool_calls`
for assistant messages. -/
structure Extras where
  tool_call_id : Option String
  name : Option String
  tool_calls : List ToolCall
deriving DecidableEq, Repr

/-- Empty `**kwargs`. -/
def noExtras : Extras := ⟨none, none, []⟩

/-- One invocation of the message-persistence hook:
`persist_message_hook(self, role, content, base64_image, kwargs)`. -/
structure PersistEntry where
  role : String
  content : String
  base64_image : Option String
  extras : Extras
deriving DecidableEq, Repr

/-- The mutable state of `BaseAgent`/`ToolCallAgent` that the claims concern.
`persistHook` is whether `persist_message_hook` is configured and `persistLog`
the calls made to it; LLM handles and prompts that never influence the
modelled behaviour are omitted. -/
structure Agent where
  state : AgentState
  memory : Memory
  persistHook : Bool
  persistLog : List PersistEntry
  current_step : Nat
  max_steps : Nat
  duplicate_threshold : Nat
  next_step_prompt : String
  conversation_id : Option String
  tool_calls : List ToolCall
  tool_choices : ToolChoice
  special_tool_names : List String
  max_observe : Option Nat
  current_base64_image : Option String
deriving DecidableEq, Repr

/-- The keys of the `message_map` dict in `BaseAgent.update_memory`. -/
def supported_roles : List String := ["user", "system", "assistant", "tool"]

/-- Message construction inside `BaseAgent.update_memory` (app/agent/base.py:193-212):
assistant messages carrying `tool_calls` go through `from_tool_calls`, tool
messages receive `tool_call_id`/`name`, others only the optional image. -/
def build_message (role content : String) (img : Option String) (extras : Extras) : Message :=
  if role == "assistant" && !extras.tool_calls.isEmpty then
    Message.from_tool_calls extras.tool_calls content img
  else if role == "user" then Message.user_message content img
  else if role == "system" then Message.system_message content img
  else if role == "assistant" then Message.assistant_message content img
  else Message.tool_message content img extras.tool_call_id extras.name

/-- `BaseAgent.update_memory` (app/agent/base.py:157-236).  An unsupported
role raises `ValueError` before any mutation; otherwise the message is added
to in-memory Memory first, then the persistence hook is invoked when `persist`
is set and a hook is configured (hook failures are swallowed by the source and
cannot affect the agent, so the hook is modelled as an append to `persistLog`). -/
def update_memory (a : Agent) (role content : String) (img : Option String)
    (extras : Extras) (persist : Bool) : Except String Agent :=
  if !(supported_roles.contains role) then
    Except.error ("Unsupported message role: " ++ role)
  else
    let a1 := { a with memory := a.memory.add_message (build_message role content img extras) }
    if persist && a1.persistHook then
      Except.ok { a1 with persistLog := a1.persistLog ++ [⟨role, content, img, extras⟩] }
    else Except.ok a1

/-- `update_memory` at a call site whose role is a supported literal, where the
source cannot raise. -/
def update_memory_ok (a : Agent) (role content : String) (img : Option String)
    (extras : Extras) (persist : Bool) : Agent :=
  match update_memory a role content img extras persist with
  | Except.ok a1 => a1
  | Except.error _ => a

/-- Python truthiness of `Message.content` (`not last_message.content`). -/
def content_falsy : Option String → Bool
  | none => true
  | some s => s.isEmpty

/-- `BaseAgent.is_stuck` (app/agent/base.py:500-516).  The source iterates
`reversed(self.memory.messages[:-1])`; reversal does not change the count, so
the duplicate count is taken over `dropLast` directly. -/
def is_stuck (a : Agent) : Bool :=
  if a.memory.messages.length < 2 then false
  else
    match a.memory.messages.getLast? with
    | none => false
    | some last =>
      if content_falsy last.content then false
      else
        decide (a.duplicate_threshold ≤
          (a.memory.messages.dropLast.filter
            (fun m => m.role == "assistant" && m.content == last.content)).length)

/-- The corrective instruction of `BaseAgent.handle_stuck_state` (the source
string literal continues over a backslash-newline, keeping the indentation). -/
def stuck_prompt : String :=
  "        Observed duplicate responses. Consider new strategies and avoid repeating ineffective paths already attempted."

/-- `BaseAgent.handle_stuck_state` (app/agent/base.py:482-498): prepend the
corrective instruction to the next-step prompt (the emitted notification is an
external sink). -/
def handle_stuck_state (a : Agent) : Agent :=
  { a with next_step_prompt := stuck_prompt ++ "\n" ++ a.next_step_prompt }

/-- Truncation of a large `read` tool message in `_cleanup_tool_messages`. -/
def truncate_read (content : String) : String :=
  let lines := content.splitOn "\n"
  if 10 < lines.length then
    String.intercalate "\n" (lines.take 5) ++ "\n...\n[Content truncated for brevity]"
  else content

/-- Truncation of a large `web_search` tool message in `_cleanup_tool_messages`.
Python `'Search results:' in content` is rendered as a `splitOn` count. -/
def truncate_web_search (content : String) : String :=
  if (content.splitOn "Search results:").length ≤ 1 then content
  else
    let step := fun (st : List String × Nat) (line : String) =>
      if line.startsWith "- " then
        (if st.2 + 1 ≤ 2 then (st.1 ++ [line], st.2 + 1) else (st.1, st.2 + 1))
      else if line.startsWith "Search results:" then st
      else (st.1 ++ [line], st.2)
    let st := (content.splitOn "\n").foldl step ([], 0)
    let tc := if 2 < st.2 then st.1 ++ ["... and " ++ toString (st.2 - 2) ++ " more results"] else st.1
    String.intercalate "\n" tc

/-- Python `str.lower()`, mapped over the characters (rather than through
`String.map`, whose well-founded recursion does not evaluate definitionally). -/
def str_lower (s : String) : String := ⟨s.data.map Char.toLower⟩

/-- The filter of `_cleanup_tool_messages` (app/agent/base.py:547-555): large
tool messages whose tool name is `read` or `web_search`. -/
def qualifies_for_cleanup (m : Message) : Bool :=
  m.role == "tool" &&
  (match m.name with
   | some n => str_lower n == "read" || str_lower n == "web_search"
   | none => false) &&
  decide (1000 < (m.content.getD "").length)

/-- In-place truncation of one qualifying tool message. -/
def clean_message (m : Message) : Message :=
  match m.name with
  | some n =>
    if str_lower n == "read" then { m with content := some (truncate_read (m.content.getD "")) }
    else if str_lower n == "web_search" then { m with content := some (truncate_web_search (m.content.getD "")) }
    else m
  | none => m

/-- `BaseAgent._cleanup_tool_messages` (app/agent/base.py:528-611): a no-op
without messages or a conversation id; otherwise qualifying tool messages are
truncated in place and each truncated content re-persisted through the hook.
The conversation fetch from the store is taken to succeed; any exception there
makes the whole pass a no-op, which coincides with this model whenever no
message qualifies. -/
def cleanup_tool_messages (a : Agent) : Agent :=
  if a.memory.messages.isEmpty || a.conversation_id.isNone then a
  else if (a.memory.messages.filter qualifies_for_cleanup).isEmpty then a
  else
    let cleaned := a.memory.messages.map
      (fun m => if qualifies_for_cleanup m then clean_message m else m)
    let entries : List PersistEntry := (a.memory.messages.filter qualifies_for_cleanup).map
      (fun m => ⟨"tool", (clean_message m).content.getD "", none, ⟨m.tool_call_id, m.name, []⟩⟩)
    { a with
      memory := { a.memory with messages := cleaned },
      persistLog := if a.persistHook then a.persistLog ++ entries else a.persistLog }

/-- The `if request: self.update_memory("user", request)` step of `run`. -/
def apply_request (a : Agent) (request : Option String) : Agent :=
  match request with
  | some r => if r.isEmpty then a else update_memory_ok a "user" r none noExtras true
  | none => a

/-- The while-loop of `BaseAgent.run` (app/agent/base.py:437-454), with the
abstract per-step action `step()` passed in as `stepF`.  The fuel bounds the
iteration count; the source increments `current_step` every pass, so
`max_steps - current_step` passes suffice whenever `step()` does not decrease
the counter. -/
def run_loop (stepF : Agent → Agent × String) : Nat → Agent → List String → Agent × List String
  | 0, a, results => (a, results)
  | Nat.succ fuel, a, results =>
    if a.current_step < a.max_steps ∧ a.state ≠ AgentState.FINISHED then
      let a1 := { a with current_step := a.current_step + 1 }
      let sr := stepF a1
      let a2 := if is_stuck sr.1 then handle_stuck_state sr.1 else sr.1
      run_loop stepF fuel a2 (results ++ ["Step " ++ toString a2.current_step ++ ": " ++ sr.2])
    else (a, results)

/-- The `if self.current_step >= self.max_steps` block at the end of the run
loop: reset the counter, reset the state to IDLE and append the termination
line. -/
def run_exhaust (p : Agent × List String) : Agent × List String :=
  if p.1.max_steps ≤ p.1.current_step then
    ({ p.1 with current_step := 0, state := AgentState.IDLE },
     p.2 ++ ["Terminated: Reached max steps (" ++ toString p.1.max_steps ++ ")"])
  else p

/-- `BaseAgent.run` (app/agent/base.py:417-473), sequenced left to right: the
IDLE precondition, the optional request message, `state_context(RUNNING)`
(which records the previous state — here the post-request state — and restores
it on exit), the loop, the exhaustion block inside the context, then after the
context pending persistence settles (the hook calls are already in
`persistLog`), the sandbox session is released (external) and
`_cleanup_tool_messages` runs.  `ToolCallAgent.run` only wraps this with tool
cleanup (external) and changes none of the modelled state. -/
def run (stepF : Agent → Agent × String) (a : Agent) (request : Option String) :
    Except String (Agent × String) :=
  if a.state ≠ AgentState.IDLE then
    Except.error ("Cannot run agent from state: " ++ state_str a.state)
  else
    Except.ok
      (cleanup_tool_messages
        { (run_exhaust (run_loop stepF
            ((apply_request a request).max_steps - (apply_request a request).current_step)
            { apply_request a request with state := AgentState.RUNNING } [])).1
          with state := (apply_request a request).state },
       if (run_exhaust (run_loop stepF
            ((apply_request a request).max_steps - (apply_request a request).current_step)
            { apply_request a request with state := AgentState.RUNNING } [])).2.isEmpty
       then "No steps executed"
       else String.intercalate "\n"
         (run_exhaust (run_loop stepF
            ((apply_request a request).max_steps - (apply_request a request).current_step)
            { apply_request a request with state := AgentState.RUNNING } [])).2)

/-- `ToolCallAgent._is_special_tool`: case-insensitive membership in the
configured special tool names. -/
def is_special_tool (a : Agent) (name : String) : Bool :=
  (a.special_tool_names.map str_lower).contains (str_lower name)

/-- `ToolCallAgent._should_finish_execution`: returns True for any special
tool result. -/
def should_finish_execution : Bool := true

/-- `ToolCallAgent._handle_special_tool` (app/agent/toolcall.py:275-289). -/
def handle_special_tool (a : Agent) (name : String) : Agent :=
  if is_special_tool a name then
    (if should_finish_execution then { a with state := AgentState.FINISHED } else a)
  else a

/-- Outcome of one invocation of a registered tool: a result (modelled from
the spec's tool contract — textual output plus optional embedded image, since
`app.tool.base.ToolResult` is absent from the sources) or a raised exception. -/
inductive ToolOutcome
  | ok (output : String) (base64_image : Option String)
  | raises (msg : String)

/-- The tool registry and the JSON parser as the agent sees them: the set of
registered names (`available_tools.tool_map`), whether `json.loads` accepts a
given argument text, and what executing a tool does. -/
structure ToolEnv where
  toolNames : List String
  parseOk : String → Bool
  runTool : String → String → ToolOutcome

/-- `command.function.arguments or "{}"` fed to `json.loads`. -/
def arg_text (c : ToolCall) : String :=
  if c.function.arguments.isEmpty then "\x7b\x7d" else c.function.arguments

/-- Modelled from the spec: Python truthiness of a `ToolResult` (`if result`),
true when any field — textual output or embedded image — is populated. -/
def tool_result_truthy (out : String) (img : Option String) : Bool :=
  !out.isEmpty || img.isSome

/-- Truthiness of `result.base64_image`. -/
def img_truthy : Option String → Bool
  | some s => !s.isEmpty
  | none => false

/-- The observation string `execute_tool` builds from a successful result. -/
def format_observation (name out : String) (img : Option String) : String :=
  if tool_result_truthy out img then
    "Observed output of cmd `" ++ name ++ "` executed:\n" ++ out
  else "Cmd `" ++ name ++ "` completed with no output"

/-- `ToolCallAgent.execute_tool` (app/agent/toolcall.py:219-273): total — an
invalid command, an unknown name, unparsable JSON arguments and a raised tool
exception each become a textual "Error..." observation; a successful special
tool flips the state to FINISHED via `_handle_special_tool`, and a populated
result image is captured for the subsequent tool message. -/
def execute_tool (env : ToolEnv) (a : Agent) (cmd : ToolCall) : Agent × String :=
  if cmd.function.name.isEmpty then (a, "Error: Invalid command format")
  else if !(env.toolNames.contains cmd.function.name) then
    (a, "Error: Unknown tool '" ++ cmd.function.name ++ "'")
  else if !(env.parseOk (arg_text cmd)) then
    (a, "Error: Error parsing arguments for " ++ cmd.function.name ++ ": Invalid JSON format")
  else
    match env.runTool cmd.function.name (arg_text cmd) with
    | ToolOutcome.raises m =>
        (a, "Error: ⚠️ Tool '" ++ cmd.function.name ++ "' encountered a problem: " ++ m)
    | ToolOutcome.ok out img =>
        let a1 := handle_special_tool a cmd.function.name
        let a2 := if img_truthy img then { a1 with current_base64_image := img } else a1
        (a2, format_observation cmd.function.name out img)

/-- `if self.max_observe: result = result[:self.max_observe]` — truthiness of
the configured observation bound. -/
def truncate_observe (mo : Option Nat) (result : String) : String :=
  match mo with
  | some n => if n = 0 then result else result.take n
  | none => result

/-- The per-call loop of `ToolCallAgent.act` (app/agent/toolcall.py:188-217):
sequential execution; the per-call image capture is reset before each call;
results truncated to `max_observe`; special tools are executed for side
effects only (their result message and result line are skipped), all others
are recorded as persisted tool messages. -/
def act_loop (env : ToolEnv) : Agent → List ToolCall → List String → Agent × List String
  | a, [], results => (a, results)
  | a, cmd :: rest, results =>
    let er := execute_tool env { a with current_base64_image := none } cmd
    let result := truncate_observe er.1.max_observe er.2
    if is_special_tool er.1 cmd.function.name then
      act_loop env er.1 rest results
    else
      act_loop env
        (update_memory_ok er.1 "tool" result er.1.current_base64_image
          ⟨some cmd.id, some cmd.function.name, []⟩ true)
        rest (results ++ [result])

/-- The hard-error message of `act` under the REQUIRED policy. -/
def TOOL_CALL_REQUIRED : String := "Tool calls required but none provided"

/-- `ToolCallAgent.act` (app/agent/toolcall.py:168-217). -/
def act (env : ToolEnv) (a : Agent) : Except String (Agent × String) :=
  if a.tool_calls.isEmpty then
    (if a.tool_choices = ToolChoice.REQUIRED then Except.error TOOL_CALL_REQUIRED
     else
       Except.ok
         (update_memory_ok a "user"
           "The LLM does not call any tool. Consider whether the last response is the final answer. If it is, invoke the `terminate` tool."
           none noExtras false,
          "Guidance added: Consider using terminate tool if this is final answer"))
  else
    let r := act_loop env a a.tool_calls []
    Except.ok (r.1, String.intercalate "\n\n" r.2)

/-- The LLM's reply to `ask_tool`: optional content, optional tool calls. -/
structure LLMResponse where
  content : Option String
  tool_calls : List ToolCall
deriving DecidableEq, Repr

/-- How the `ask_tool` call ends: a response (possibly None), a `ValueError`
(re-raised by the source), or another exception whose cause may unwrap to
`TokenLimitExceeded`. -/
inductive AskOutcome
  | ok (resp : Option LLMResponse)
  | valueError (msg : String)
  | fail (msg : String) (token_limit_cause : Bool)
deriving DecidableEq, Repr

/-- How `think` ends: a boolean return, or an exception escaping the phase. -/
inductive ThinkResult
  | ret (a : Agent) (cont : Bool)
  | raised (a : Agent) (msg : String)
deriving DecidableEq, Repr

/-- The ephemeral next-step guidance injected at the top of `think`
(persist=False). -/
def inject_next_step (a : Agent) : Agent :=
  if a.next_step_prompt.isEmpty then a
  else update_memory_ok a "user" a.next_step_prompt none noExtras false

/-- `ToolCallAgent.think` (app/agent/toolcall.py:40-166), as a function of the
`ask_tool` outcome.  A `ValueError` is re-raised; a failure whose cause
unwraps to `TokenLimitExceeded` records a final assistant message and flips
the state to FINISHED; any other `ask_tool` failure is re-raised.  On a
response, the tool calls are stored, then the tool-choice policies are
applied; a `None` response raises a `RuntimeError` that the processing handler
catches and records.  When a special tool is among the calls, the assistant
message is deliberately not recorded. -/
def think (a0 : Agent) (ask : AskOutcome) : ThinkResult :=
  let a := inject_next_step a0
  match ask with
  | AskOutcome.valueError m => ThinkResult.raised a m
  | AskOutcome.fail m true =>
      let a1 := update_memory_ok a "assistant"
        ("Maximum token limit reached, cannot continue execution: " ++ m) none noExtras true
      ThinkResult.ret { a1 with state := AgentState.FINISHED } false
  | AskOutcome.fail m false => ThinkResult.raised a m
  | AskOutcome.ok resp =>
    let tcs := match resp with
      | some r => r.tool_calls
      | none => []
    let content := match resp with
      | some r => r.content.getD ""
      | none => ""
    let a1 := { a with tool_calls := tcs }
    match resp with
    | none =>
        ThinkResult.ret (update_memory_ok a1 "assistant"
          "Error encountered while processing: No response received from the LLM" none noExtras true) false
    | some _ =>
      if a1.tool_choices = ToolChoice.NONE then
        (if !content.isEmpty then
           ThinkResult.ret (update_memory_ok a1 "assistant" content none noExtras true) true
         else ThinkResult.ret a1 false)
      else if a1.tool_choices = ToolChoice.REQUIRED ∧ tcs = [] then
        ThinkResult.ret
          (if !content.isEmpty then update_memory_ok a1 "assistant" content none noExtras true else a1) true
      else if a1.tool_choices = ToolChoice.AUTO ∧ tcs = [] then
        ThinkResult.ret
          (if !content.isEmpty then update_memory_ok a1 "assistant" content none noExtras true else a1)
          (!content.isEmpty)
      else if tcs.any (fun c => is_special_tool a1 c.function.name) then
        ThinkResult.ret a1 (!tcs.isEmpty)
      else
        ThinkResult.ret
          (update_memory_ok a1 "assistant" content none ⟨none, none, tcs⟩ true) (!tcs.isEmpty)

/-- A concrete agent used by the witnesses: fresh memory, default threshold 2,
hook configured, `terminate` as the special tool, AUTO tool choice. -/
def egAgent : Agent :=
  { state := AgentState.IDLE
    memory := ⟨[], 100⟩
    persistHook := true
    persistLog := []
    current_step := 0
    max_steps := 10
    duplicate_threshold := 2
    next_step_prompt := ""
    conversation_id := none
    tool_calls := []
    tool_choices := ToolChoice.AUTO
    special_tool_names := ["terminate"]
    max_observe := none
    current_base64_image := none }

/-- A concrete tool registry for the witnesses: `bash` and `terminate`
succeed, `boomtool` raises, the argument text "bad" fails JSON parsing. -/
def egEnv : ToolEnv :=
  { toolNames := ["bash", "boomtool", "terminate"]
    parseOk := fun s => !(s == "bad")
    runTool := fun n _ =>
      if n == "boomtool" then ToolOutcome.raises "kaboom" else ToolOutcome.ok "done" none }

/-- A `terminate` tool call with empty arguments. -/
def egCmdTerm : ToolCall := ⟨"call-0", ⟨"terminate", ""⟩⟩

/-- A call to an unregistered tool. -/
def egCmdUnknown : ToolCall := ⟨"call-2", ⟨"nope", ""⟩⟩

/-- A `bash` call whose arguments fail JSON parsing. -/
def egCmdBadJson : ToolCall := ⟨"call-3", ⟨"bash", "bad"⟩⟩

/-- A call to the tool that raises. -/
def egCmdBoom : ToolCall := ⟨"call-4", ⟨"boomtool", ""⟩⟩

/-! ### Support lemmas for the path functions -/

lemma hasPfx_nil_right (s : Path) : hasPfx s [] = true := by
  cases s <;> rfl

lemma hasPfx_append (t s : Path) : hasPfx (t ++ s) t = true := by
  induction t with
  | nil => exact hasPfx_nil_right s
  | cons c t ih => simp [hasPfx, ih]

lemma hasPfx_iff {s t : Path} : hasPfx s t = true ↔ ∃ r, s = t ++ r := by
  induction t generalizing s with
  | nil => simp [hasPfx]
  | cons d t ih =>
    cases s with
    | nil => simp [hasPfx]
    | cons c s =>
      simp only [hasPfx, Bool.and_eq_true, beq_iff_eq, ih, List.cons_append]
      constructor
      · rintro ⟨rfl, r, rfl⟩; exact ⟨r, rfl⟩
      · rintro ⟨r, h⟩
        injection h with h1 h2
        exact ⟨h1, r, h2⟩

lemma hasPfx_refl (t : Path) : hasPfx t t = true := by
  have h := hasPfx_append t []
  simpa using h

lemma hasPfx_of_append {s x y : Path} (h : hasPfx s (x ++ y) = true) : hasPfx s x = true := by
  rcases hasPfx_iff.1 h with ⟨r, rfl⟩
  rw [List.append_assoc]
  exact hasPfx_append x (y ++ r)

lemma not_bs_mem_replaceBS (p : Path) : '\\' ∉ replaceBS p := by
  intro h
  rcases List.mem_map.1 h with ⟨c, _, hc⟩
  by_cases hcc : c = '\\' <;> simp [hcc] at hc

lemma replaceBS_eq_self {p : Path} (h : '\\' ∉ p) : replaceBS p = p := by
  induction p with
  | nil => rfl
  | cons c p ih =>
    simp only [List.mem_cons, not_or] at h
    simp [replaceBS, List.map_cons, Ne.symm h.1]
    exact ih h.2

lemma mem_rstripSlash {c : Char} {p : Path} (h : c ∈ rstripSlash p) : c ∈ p := by
  unfold rstripSlash at h
  rw [List.mem_reverse] at h
  have := (List.dropWhile_sublist (l := p.reverse) (p := fun c => c = '/')).mem h
  rwa [List.mem_reverse] at this

lemma mem_lstripSlash {c : Char} {p : Path} (h : c ∈ lstripSlash p) : c ∈ p :=
  (List.dropWhile_sublist (l := p) (p := fun c => c = '/')).mem h

lemma not_bs_clientWorkDir {cfg : Path} (h : '\\' ∉ cfg) : '\\' ∉ clientWorkDir cfg := by
  intro hm
  have hm' := mem_rstripSlash hm
  by_cases hc : cfg = []
  · rw [if_pos hc] at hm'
    revert hm'
    decide
  · rw [if_neg hc] at hm'
    exact h hm'

lemma hasPfx_slash_replaceBS {p : Path} (h : hasPfx p ['/'] = true) :
    hasPfx (replaceBS p) ['/'] = true := by
  cases p with
  | nil => simp [hasPfx] at h
  | cons c p =>
    simp only [hasPfx, Bool.and_eq_true, beq_iff_eq] at h
    simp [replaceBS, hasPfx, h.1]

/-- Every non-empty input is mapped to something backslash-free that equals the
canonical work_dir or extends it with a slash. -/
lemma map_to_workspace_output (cfg ws p : Path) (hbs : '\\' ∉ cfg) (hp : p ≠ []) :
    '\\' ∉ map_to_workspace cfg ws p ∧
    (map_to_workspace cfg ws p = clientWorkDir cfg ∨
      hasPfx (map_to_workspace cfg ws p) (clientWorkDir cfg ++ ['/']) = true) := by
  have hwd : '\\' ∉ clientWorkDir cfg := not_bs_clientWorkDir hbs
  have hpos : '\\' ∉ replaceBS p := not_bs_mem_replaceBS p
  have hcons : ∀ q : Path, '\\' ∉ q →
      '\\' ∉ clientWorkDir cfg ++ '/' :: q ∧
      hasPfx (clientWorkDir cfg ++ '/' :: q) (clientWorkDir cfg ++ ['/']) = true := by
    intro q hq
    constructor
    · intro hm
      rcases List.mem_append.1 hm with hm | hm
      · exact hwd hm
      · rcases List.mem_cons.1 hm with hm | hm
        · exact absurd hm.symm (by decide)
        · exact hq hm
    · rw [List.append_cons (clientWorkDir cfg) '/' q]
      exact hasPfx_append _ _
  unfold map_to_workspace
  rw [if_neg hp]
  by_cases h1 : replaceBS p = clientWorkDir cfg ∨
      hasPfx (replaceBS p) (clientWorkDir cfg ++ ['/']) = true
  · rw [if_pos h1]; exact ⟨hpos, h1⟩
  rw [if_neg h1]
  by_cases h2 : replaceBS p = legacyRoot ∨ hasPfx (replaceBS p) (legacyRoot ++ ['/']) = true
  · rw [if_pos h2]
    by_cases h3 : lstripSlash ((replaceBS p).drop legacyRoot.length) = []
    · rw [if_pos h3]; exact ⟨hwd, Or.inl rfl⟩
    · rw [if_neg h3]
      have hq : '\\' ∉ lstripSlash ((replaceBS p).drop legacyRoot.length) :=
        fun hm => hpos (List.drop_subset _ _ (mem_lstripSlash hm))
      exact ⟨(hcons _ hq).1, Or.inr (hcons _ hq).2⟩
  rw [if_neg h2]
  by_cases h4 : hasPfx (replaceBS p) ['/'] = true
  · rw [if_pos h4]
    have hq : '\\' ∉ lstripSlash (replaceBS p) := fun hm => hpos (mem_lstripSlash hm)
    exact ⟨(hcons _ hq).1, Or.inr (hcons _ hq).2⟩
  rw [if_neg h4]
  have h5 : ¬ hasPfx p ['/'] = true := fun hh => h4 (hasPfx_slash_replaceBS hh)
  rw [if_neg h5]
  exact ⟨(hcons _ hpos).1, Or.inr (hcons _ hpos).2⟩

/-- A non-empty, backslash-free path already at or under the canonical root is
a fixed point of `map_to_workspace`. -/
lemma map_to_workspace_fixed {cfg ws s : Path} (hs : s ≠ []) (hbs : '\\' ∉ s)
    (h : s = clientWorkDir cfg ∨ hasPfx s (clientWorkDir cfg ++ ['/']) = true) :
    map_to_workspace cfg ws s = s := by
  unfold map_to_workspace
  rw [if_neg hs, replaceBS_eq_self hbs, if_pos h]

/-- C1 (amended): with a backslash-free configured `work_dir`, the client's
path mapping is idempotent on every input, and every non-empty input maps to a
path that starts with the canonical (trailing-slash-stripped) work_dir. -/
theorem C1_map_idempotent_and_rooted (cfg ws p : Path) (hbs : '\\' ∉ cfg) :
    map_to_workspace cfg ws (map_to_workspace cfg ws p) = map_to_workspace cfg ws p ∧
    (p ≠ [] → hasPfx (map_to_workspace cfg ws p) (clientWorkDir cfg) = true) := by
  by_cases hp : p = []
  · subst hp
    constructor
    · rfl
    · intro h; exact absurd rfl h
  · obtain ⟨hout, hdisj⟩ := map_to_workspace_output cfg ws p hbs hp
    constructor
    · by_cases hr : map_to_workspace cfg ws p = []
      · rw [hr]; rfl
      · exact map_to_workspace_fixed hr hout hdisj
    · intro _
      rcases hdisj with h | h
      · rw [h]; exact hasPfx_refl _
      · exact hasPfx_of_append h

/-- Witness for `C1_map_idempotent_and_rooted` at the configured default
work_dir and the path `"file.py"`. -/
theorem C1_map_idempotent_and_rooted_witness :
    map_to_workspace "/home/daytona/workspace".data [] (map_to_workspace "/home/daytona/workspace".data [] "file.py".data)
      = map_to_workspace "/home/daytona/workspace".data [] "file.py".data ∧
    ("file.py".data ≠ ([] : Path) →
      hasPfx (map_to_workspace "/home/daytona/workspace".data [] "file.py".data)
        (clientWorkDir "/home/daytona/workspace".data) = true) :=
  C1_map_idempotent_and_rooted "/home/daytona/workspace".data [] "file.py".data (by decide)

/-- C1 counterexample: for the empty input path the mapping returns the empty
string, which does not start with the canonical work_dir prefix (the mapping
is still idempotent there). -/
theorem C1_empty_path_counterexample :
    map_to_workspace "/home/daytona/workspace".data [] [] = [] ∧
    hasPfx (map_to_workspace "/home/daytona/workspace".data [] [])
      (clientWorkDir "/home/daytona/workspace".data) = false := by
  constructor
  · rfl
  · decide

/-- C2 (amended): for every non-empty input path, provided the configured
`work_dir` is non-empty and backslash-free, the file operator's
`_to_sandbox_path` agrees with the sandbox client's `_map_to_workspace`. -/
theorem C2_to_sandbox_path_refines_map (cfg ws p : Path)
    (hcfg : cfg ≠ []) (hbs : '\\' ∉ cfg) (hp : p ≠ []) :
    to_sandbox_path cfg ws p = map_to_workspace cfg ws p := by
  have hwd : fileopWorkDir cfg = clientWorkDir cfg := by
    unfold fileopWorkDir clientWorkDir
    rw [replaceBS_eq_self hbs, if_neg hcfg]
  unfold to_sandbox_path map_to_workspace
  rw [if_neg hp, hwd]
  by_cases h1 : replaceBS p = clientWorkDir cfg ∨
      hasPfx (replaceBS p) (clientWorkDir cfg ++ ['/']) = true
  · rw [if_pos h1, if_pos h1]
  rw [if_neg h1, if_neg h1]
  by_cases h2 : replaceBS p = legacyRoot ∨ hasPfx (replaceBS p) (legacyRoot ++ ['/']) = true
  · rw [if_pos h2, if_pos h2]
  rw [if_neg h2, if_neg h2]
  by_cases h3 : hasPfx (replaceBS p) ['/'] = true
  · rw [if_pos h3, if_pos h3]
  rw [if_neg h3, if_neg h3]
  have h4 : ¬ hasPfx p ['/'] = true := fun hh => h3 (hasPfx_slash_replaceBS hh)
  rw [if_neg h4, if_neg h4]

/-- Witness for `C2_to_sandbox_path_refines_map` at the configured default
work_dir and a relative path. -/
theorem C2_to_sandbox_path_refines_map_witness :
    to_sandbox_path "/home/daytona/workspace".data [] "notes/todo.txt".data =
      map_to_workspace "/home/daytona/workspace".data [] "notes/todo.txt".data :=
  C2_to_sandbox_path_refines_map "/home/daytona/workspace".data [] "notes/todo.txt".data
    (by decide) (by decide) (by decide)

/-- C2 counterexample: on the empty path the two canonicalizers disagree — the
client returns it unchanged while the file operator maps it below work_dir. -/
theorem C2_empty_path_counterexample :
    to_sandbox_path "/home/daytona/workspace".data [] [] ≠
      map_to_workspace "/home/daytona/workspace".data [] [] := by
  decide

/-! ### Support lemmas for the agent core -/

/-- Normal form of `update_memory` at a supported role: message added to
Memory first, then the hook invocation appended exactly when `persist` is set
and a hook is configured. -/
lemma update_memory_ok_norm (a : Agent) (role content : String) (img : Option String)
    (extras : Extras) (persist : Bool) (h : supported_roles.contains role = true) :
    update_memory_ok a role content img extras persist =
      { a with memory := a.memory.add_message (build_message role content img extras),
               persistLog := if persist && a.persistHook
                             then a.persistLog ++ [⟨role, content, img, extras⟩]
                             else a.persistLog } := by
  unfold update_memory_ok update_memory
  rw [h]
  by_cases hp : (persist && a.persistHook) = true <;> simp [hp]

lemma build_message_user (c : String) (img : Option String) :
    build_message "user" c img noExtras = Message.user_message c img := by
  have h1 : ("user" == "assistant") = false := by decide
  have h2 : ("user" == "user") = true := by decide
  simp [build_message, noExtras, h1, h2]

lemma build_message_assistant (c : String) (img : Option String) :
    build_message "assistant" c img noExtras = Message.assistant_message c img := by
  have h1 : ("assistant" == "assistant") = true := by decide
  have h2 : ("assistant" == "user") = false := by decide
  have h3 : ("assistant" == "system") = false := by decide
  simp [build_message, noExtras, h1, h2, h3]

lemma build_message_tool (c : String) (img tid tname : Option String) :
    build_message "tool" c img ⟨tid, tname, []⟩ = Message.tool_message c img tid tname := by
  have h1 : ("tool" == "assistant") = false := by decide
  have h2 : ("tool" == "user") = false := by decide
  have h3 : ("tool" == "system") = false := by decide
  simp [build_message, h1, h2, h3]

lemma add_message_getLast (M : Memory) (msg : Message) (h : 1 ≤ M.max_messages) :
    (M.add_message msg).messages.getLast? = some msg := by
  unfold Memory.add_message
  simp only
  by_cases hc : M.max_messages < (M.messages ++ [msg]).length
  · rw [if_pos hc]
    have hk : (M.messages ++ [msg]).length - M.max_messages ≤ M.messages.length := by
      simp only [List.length_append, List.length_cons, List.length_nil]
      omega
    rw [List.drop_append_of_le_length hk, List.getLast?_concat]
  · rw [if_neg hc, List.getLast?_concat]

lemma add_message_max (M : Memory) (msg : Message) :
    (M.add_message msg).max_messages = M.max_messages := rfl

lemma cleanup_of_no_qualifying (a : Agent)
    (h : (a.memory.messages.filter qualifies_for_cleanup).isEmpty = true) :
    cleanup_tool_messages a = a := by
  unfold cleanup_tool_messages
  by_cases h1 : (a.memory.messages.isEmpty || a.conversation_id.isNone) = true
  · rw [if_pos h1]
  · rw [if_neg h1, if_pos h]

lemma filter_replicate_of_pos {α : Type} (p : α → Bool) (x : α) (h : p x = true) (n : Nat) :
    (List.replicate n x).filter p = List.replicate n x := by
  induction n with
  | zero => rfl
  | succ n ih => simp [List.replicate_succ, List.filter_cons, h, ih]

/-! ### C5: stuck detection -/

/-- C5 (amended): `is_stuck` compares the last message's content against the
prior assistant messages, so it fires once the content occurs
`duplicate_threshold + 1` times consecutively (the last occurrence plus
`duplicate_threshold` earlier ones), and stays false at `duplicate_threshold`
total occurrences. -/
theorem C5_is_stuck_threshold (a b : Agent) (t : Nat) (c : String)
    (ht : 1 ≤ t) (hc : c ≠ "")
    (hamem : a.memory.messages = List.replicate (t + 1) (Message.assistant_message c none))
    (hat : a.duplicate_threshold = t)
    (hbmem : b.memory.messages = List.replicate t (Message.assistant_message c none))
    (hbt : b.duplicate_threshold = t) :
    is_stuck a = true ∧ is_stuck b = false := by
  have hfalsy : content_falsy (Message.assistant_message c none).content = false := by
    simp only [Message.assistant_message, content_falsy, Bool.eq_false_iff, ne_eq,
      String.isEmpty_iff]
    exact hc
  have hpred : (fun m => m.role == "assistant" &&
      m.content == (Message.assistant_message c none).content)
      (Message.assistant_message c none) = true := by
    simp [Message.assistant_message]
  constructor
  · unfold is_stuck
    rw [hamem, hat, List.replicate_succ']
    have hlen : ¬((List.replicate t (Message.assistant_message c none) ++
        [Message.assistant_message c none]).length < 2) := by
      simp only [List.length_append, List.length_replicate, List.length_cons, List.length_nil]
      omega
    rw [if_neg hlen, List.getLast?_concat]
    simp only [List.dropLast_concat, hfalsy, Bool.false_eq_true, if_false]
    rw [filter_replicate_of_pos
      (fun m => m.role == "assistant" && m.content == (Message.assistant_message c none).content)
      (Message.assistant_message c none) hpred t, List.length_replicate]
    simp
  · unfold is_stuck
    obtain ⟨k, rfl⟩ : ∃ k, t = k + 1 := ⟨t - 1, by omega⟩
    rw [hbmem, hbt, List.replicate_succ']
    by_cases hk : (List.replicate k (Message.assistant_message c none) ++
        [Message.assistant_message c none]).length < 2
    · rw [if_pos hk]
    · rw [if_neg hk, List.getLast?_concat]
      simp only [List.dropLast_concat, hfalsy, Bool.false_eq_true, if_false]
      rw [filter_replicate_of_pos
        (fun m => m.role == "assistant" && m.content == (Message.assistant_message c none).content)
        (Message.assistant_message c none) hpred k, List.length_replicate,
        decide_eq_false_iff_not]
      omega

/-- Witness for `C5_is_stuck_threshold`: three identical assistant messages
trip the default threshold 2, two do not. -/
theorem C5_is_stuck_threshold_witness :
    is_stuck { egAgent with
        memory := ⟨List.replicate 3 (Message.assistant_message "loop" none), 100⟩,
        duplicate_threshold := 2 } = true ∧
    is_stuck { egAgent with
        memory := ⟨List.replicate 2 (Message.assistant_message "loop" none), 100⟩,
        duplicate_threshold := 2 } = false :=
  C5_is_stuck_threshold _ _ 2 "loop" (by decide) (by decide) rfl rfl rfl rfl

/-- C5 counterexample: with the default `duplicate_threshold = 2`, an
assistant message whose content occurs exactly twice consecutively does NOT
make `is_stuck` return true (the last message is compared against the prior
ones only, so a single earlier duplicate stays below the threshold). -/
theorem C5_two_repetitions_counterexample :
    is_stuck { egAgent with
        memory := ⟨[Message.assistant_message "loop" none, Message.assistant_message "loop" none], 100⟩,
        duplicate_threshold := 2 } = false := by
  decide

/-! ### C6/C7: the memory mutation contract -/

/-- C6: `update_memory` with `persist = False` on a supported role appends the
message to in-memory Memory but never invokes the persistence hook. -/
theorem C6_ephemeral_update_memory (a : Agent) (role content : String)
    (img : Option String) (extras : Extras) (h : supported_roles.contains role = true) :
    ∃ a1, update_memory a role content img extras false = Except.ok a1 ∧
      a1.memory = a.memory.add_message (build_message role content img extras) ∧
      a1.persistLog = a.persistLog := by
  unfold update_memory
  rw [h]
  exact ⟨_, rfl, rfl, rfl⟩

/-- Witness for `C6_ephemeral_update_memory` at role "user". -/
theorem C6_ephemeral_update_memory_witness :
    ∃ a1, update_memory egAgent "user" "steering" none noExtras false = Except.ok a1 ∧
      a1.memory = egAgent.memory.add_message (build_message "user" "steering" none noExtras) ∧
      a1.persistLog = egAgent.persistLog :=
  C6_ephemeral_update_memory egAgent "user" "steering" none noExtras (by decide)

/-- C7: `update_memory` with a role outside {user, system, assistant, tool}
raises the invalid-role error; the check precedes every mutation in the
source, so no message is appended and the hook is not invoked (the embedding
returns only the error). -/
theorem C7_invalid_role_update_memory (a : Agent) (role content : String)
    (img : Option String) (extras : Extras) (persist : Bool)
    (h : supported_roles.contains role = false) :
    update_memory a role content img extras persist =
      Except.error ("Unsupported message role: " ++ role) := by
  unfold update_memory
  rw [h]
  rfl

/-- Witness for `C7_invalid_role_update_memory` at role "function". -/
theorem C7_invalid_role_update_memory_witness :
    update_memory egAgent "function" "x" none noExtras true =
      Except.error ("Unsupported message role: " ++ "function") :=
  C7_invalid_role_update_memory egAgent "function" "x" none noExtras true (by decide)

/-! ### C8/C10: the run loop -/

lemma intercalate_single (s x : String) : String.intercalate s [x] = x := by
  simp [String.intercalate]
  rfl

lemma cleanup_tool_messages_state (a : Agent) :
    (cleanup_tool_messages a).state = a.state := by
  unfold cleanup_tool_messages
  by_cases h1 : (a.memory.messages.isEmpty || a.conversation_id.isNone) = true
  · rw [if_pos h1]
  · rw [if_neg h1]
    by_cases h2 : (a.memory.messages.filter qualifies_for_cleanup).isEmpty = true
    · rw [if_pos h2]
    · rw [if_neg h2]

lemma cleanup_tool_messages_current_step (a : Agent) :
    (cleanup_tool_messages a).current_step = a.current_step := by
  unfold cleanup_tool_messages
  by_cases h1 : (a.memory.messages.isEmpty || a.conversation_id.isNone) = true
  · rw [if_pos h1]
  · rw [if_neg h1]
    by_cases h2 : (a.memory.messages.filter qualifies_for_cleanup).isEmpty = true
    · rw [if_pos h2]
    · rw [if_neg h2]

lemma apply_request_state (a : Agent) (req : Option String) :
    (apply_request a req).state = a.state := by
  cases req with
  | none => rfl
  | some r =>
    show (if r.isEmpty = true then a else update_memory_ok a "user" r none noExtras true).state
      = a.state
    by_cases hr : r.isEmpty = true
    · rw [if_pos hr]
    · rw [if_neg hr, update_memory_ok_norm a "user" r none noExtras true (by decide)]

/-- C8: `run` on an IDLE agent with `max_steps = 0` and a fresh memory
executes zero steps: exactly the request's user message is appended (and
persisted via the hook), the step counter is reset to 0, the state is IDLE
again, and the trace is just the max-steps termination line. -/
theorem C8_run_zero_max_steps (stepF : Agent → Agent × String) (a : Agent) (r : String)
    (hstate : a.state = AgentState.IDLE) (hmax : a.max_steps = 0)
    (hmem : a.memory.messages = []) (hcap : 1 ≤ a.memory.max_messages)
    (hhook : a.persistHook = true) (hr : r.isEmpty = false) :
    ∃ a1, run stepF a (some r) = Except.ok (a1, "Terminated: Reached max steps (0)") ∧
      a1.memory.messages = [Message.user_message r none] ∧
      a1.persistLog = a.persistLog ++ [⟨"user", r, none, noExtras⟩] ∧
      a1.current_step = 0 ∧ a1.state = AgentState.IDLE := by
  have hguard : ¬(a.state ≠ AgentState.IDLE) := by rw [hstate]; simp
  have hA : apply_request a (some r) =
      { a with memory := { a.memory with messages := [Message.user_message r none] },
               persistLog := a.persistLog ++ [⟨"user", r, none, noExtras⟩] } := by
    show (if r.isEmpty = true then a else update_memory_ok a "user" r none noExtras true) = _
    rw [if_neg (by rw [hr]; simp), update_memory_ok_norm a "user" r none noExtras true (by decide),
      build_message_user]
    have hAdd : a.memory.add_message (Message.user_message r none) =
        { a.memory with messages := [Message.user_message r none] } := by
      unfold Memory.add_message
      rw [hmem]
      simp only [List.nil_append, List.length_cons, List.length_nil]
      rw [if_neg (by omega)]
    rw [hAdd, hhook]
    rfl
  unfold run
  rw [if_neg hguard, hA]
  set R : Agent :=
    { a with memory := { a.memory with messages := [Message.user_message r none] },
             persistLog := a.persistLog ++ [⟨"user", r, none, noExtras⟩] } with hR
  have hfuel : R.max_steps - R.current_step = 0 := by
    have h : a.max_steps - a.current_step = 0 := by rw [hmax]; exact Nat.zero_sub _
    exact h
  rw [hfuel]
  rw [show run_loop stepF 0 { R with state := AgentState.RUNNING } [] =
    ({ R with state := AgentState.RUNNING }, []) from rfl]
  have hexh : run_exhaust ({ R with state := AgentState.RUNNING }, []) =
      ({ R with current_step := 0, state := AgentState.IDLE },
       ["Terminated: Reached max steps (0)"]) := by
    unfold run_exhaust
    have hle : ({ R with state := AgentState.RUNNING } : Agent).max_steps ≤
        ({ R with state := AgentState.RUNNING } : Agent).current_step := by
      have h : a.max_steps ≤ a.current_step := by rw [hmax]; exact Nat.zero_le _
      exact h
    rw [if_pos hle]
    have hts : toString ({ R with state := AgentState.RUNNING } : Agent).max_steps = "0" := by
      have h : toString a.max_steps = "0" := by rw [hmax]; rfl
      exact h
    rw [hts]
    rfl
  rw [hexh]
  have hqual : qualifies_for_cleanup (Message.user_message r none) = false := by
    have h1 : ("user" == "tool") = false := by decide
    simp [qualifies_for_cleanup, Message.user_message, h1]
  have hfilt : ((({ ({ R with current_step := 0, state := AgentState.IDLE } : Agent)
        with state := R.state } : Agent)).memory.messages.filter
      qualifies_for_cleanup).isEmpty = true := by
    show (([Message.user_message r none]).filter qualifies_for_cleanup).isEmpty = true
    rw [List.filter_cons, hqual]
    rfl
  rw [cleanup_of_no_qualifying _ hfilt]
  rw [if_neg (by simp : ¬((["Terminated: Reached max steps (0)"] : List String).isEmpty = true))]
  rw [intercalate_single]
  exact ⟨_, rfl, rfl, rfl, rfl, hstate⟩

/-- C10: whenever `run` returns normally, the agent is IDLE again (the state
context restores the pre-run state on exit), so the IDLE precondition holds
for an immediate re-invocation; the step counter is reset to 0 in the
step-exhaustion case and keeps the loop's final value otherwise (in particular
after a FINISHED-terminated loop). -/
theorem C10_run_restores_idle (stepF : Agent → Agent × String) (a : Agent)
    (req : Option String) (hstate : a.state = AgentState.IDLE) :
    ∃ a1 s, run stepF a req = Except.ok (a1, s) ∧ a1.state = AgentState.IDLE ∧
      (let b := (run_loop stepF
          ((apply_request a req).max_steps - (apply_request a req).current_step)
          { apply_request a req with state := AgentState.RUNNING } []).1
       (b.max_steps ≤ b.current_step → a1.current_step = 0) ∧
       (b.current_step < b.max_steps → a1.current_step = b.current_step)) := by
  have hguard : ¬(a.state ≠ AgentState.IDLE) := by rw [hstate]; simp
  unfold run
  rw [if_neg hguard]
  refine ⟨_, _, rfl, ?_, ?_, ?_⟩
  · rw [cleanup_tool_messages_state]
    show (apply_request a req).state = AgentState.IDLE
    rw [apply_request_state, hstate]
  · intro hle
    rw [cleanup_tool_messages_current_step]
    show (run_exhaust _).1.current_step = 0
    unfold run_exhaust
    rw [if_pos hle]
  · intro hlt
    rw [cleanup_tool_messages_current_step]
    show (run_exhaust _).1.current_step = _
    unfold run_exhaust
    rw [if_neg (by omega)]

/-- Witness for `C8_run_zero_max_steps`: a fresh agent with `max_steps = 0`. -/
theorem C8_run_zero_max_steps_witness :
    ∃ a1, run (fun x => (x, "ok")) { egAgent with max_steps := 0 } (some "Hello") =
        Except.ok (a1, "Terminated: Reached max steps (0)") ∧
      a1.memory.messages = [Message.user_message "Hello" none] ∧
      a1.persistLog = ({ egAgent with max_steps := 0 } : Agent).persistLog ++
        [⟨"user", "Hello", none, noExtras⟩] ∧
      a1.current_step = 0 ∧ a1.state = AgentState.IDLE :=
  C8_run_zero_max_steps (fun x => (x, "ok")) { egAgent with max_steps := 0 } "Hello"
    rfl rfl rfl (by decide) rfl rfl

/-! ### C9: think-phase failure handling -/

lemma inject_next_step_norm (a : Agent) :
    inject_next_step a =
      if a.next_step_prompt.isEmpty = true then a
      else { a with
        memory := a.memory.add_message (build_message "user" a.next_step_prompt none noExtras) } := by
  unfold inject_next_step
  by_cases h : a.next_step_prompt.isEmpty = true
  · rw [if_pos h, if_pos h]
  · rw [if_neg h, if_neg h, update_memory_ok_norm _ _ _ _ _ _ (by decide)]
    rfl

lemma inject_fields (a : Agent) :
    (inject_next_step a).state = a.state ∧
    (inject_next_step a).persistLog = a.persistLog ∧
    (inject_next_step a).memory.max_messages = a.memory.max_messages ∧
    (inject_next_step a).tool_choices = a.tool_choices ∧
    (inject_next_step a).special_tool_names = a.special_tool_names ∧
    (inject_next_step a).persistHook = a.persistHook := by
  rw [inject_next_step_norm]
  by_cases h : a.next_step_prompt.isEmpty = true
  · rw [if_pos h]
    exact ⟨rfl, rfl, rfl, rfl, rfl, rfl⟩
  · rw [if_neg h]
    exact ⟨rfl, rfl, rfl, rfl, rfl, rfl⟩

/-- C9 (amended): a think-phase failure whose cause unwraps to
token-limit-exceeded is terminal — a final assistant message records the
failure, the state moves to FINISHED and `think` returns false; a failure
while processing the LLM response (here: no response at all, triggering the
internal `RuntimeError`) is caught, recorded as an assistant message and
`think` returns false without raising.  (A non-token-limit failure of the
`ask_tool` call itself is, however, re-raised — see the counterexample.) -/
theorem C9_think_failure_modes (a : Agent) (m : String) (hcap : 1 ≤ a.memory.max_messages) :
    (∃ a1, think a (AskOutcome.fail m true) = ThinkResult.ret a1 false ∧
       a1.state = AgentState.FINISHED ∧
       a1.memory.messages.getLast? =
         some (Message.assistant_message
           ("Maximum token limit reached, cannot continue execution: " ++ m) none)) ∧
    (∃ a1, think a (AskOutcome.ok none) = ThinkResult.ret a1 false ∧
       a1.state = a.state ∧
       a1.memory.messages.getLast? =
         some (Message.assistant_message
           "Error encountered while processing: No response received from the LLM" none)) := by
  obtain ⟨hist, hilog, himax, _, _, _⟩ := inject_fields a
  constructor
  · refine ⟨_, rfl, rfl, ?_⟩
    show ((update_memory_ok (inject_next_step a) "assistant"
      ("Maximum token limit reached, cannot continue execution: " ++ m) none noExtras
      true).memory).messages.getLast? = _
    rw [update_memory_ok_norm _ _ _ _ _ _ (by decide), build_message_assistant]
    show ((inject_next_step a).memory.add_message _).messages.getLast? = _
    exact add_message_getLast _ _ (by rw [himax]; exact hcap)
  · refine ⟨_, rfl, ?_, ?_⟩
    · show (update_memory_ok { inject_next_step a with tool_calls := ([] : List ToolCall) }
        "assistant" "Error encountered while processing: No response received from the LLM"
        none noExtras true).state = a.state
      rw [update_memory_ok_norm _ _ _ _ _ _ (by decide)]
      exact hist
    · show ((update_memory_ok { inject_next_step a with tool_calls := ([] : List ToolCall) }
        "assistant" "Error encountered while processing: No response received from the LLM"
        none noExtras true).memory).messages.getLast? = _
      rw [update_memory_ok_norm _ _ _ _ _ _ (by decide), build_message_assistant]
      show (({ inject_next_step a with tool_calls := ([] : List ToolCall) } : Agent).memory.add_message
        _).messages.getLast? = _
      exact add_message_getLast _ _ (by
        show 1 ≤ (inject_next_step a).memory.max_messages
        rw [himax]
        exact hcap)

/-- Witness for `C9_think_failure_modes` on the example agent. -/
theorem C9_think_failure_modes_witness :
    (∃ a1, think egAgent (AskOutcome.fail "too long" true) = ThinkResult.ret a1 false ∧
       a1.state = AgentState.FINISHED ∧
       a1.memory.messages.getLast? =
         some (Message.assistant_message
           ("Maximum token limit reached, cannot continue execution: " ++ "too long") none)) ∧
    (∃ a1, think egAgent (AskOutcome.ok none) = ThinkResult.ret a1 false ∧
       a1.state = egAgent.state ∧
       a1.memory.messages.getLast? =
         some (Message.assistant_message
           "Error encountered while processing: No response received from the LLM" none)) :=
  C9_think_failure_modes egAgent "too long" (by decide)

/-- C9 counterexample: an `ask_tool` failure that is NOT a token-limit
condition is re-raised out of `think` (the source handler checks the cause
and falls through to `raise`), contradicting "any other unexpected failure
during thinking is caught ... without raising out of the phase". -/
theorem C9_nontoken_failure_raises_counterexample :
    think egAgent (AskOutcome.fail "boom" false) = ThinkResult.raised egAgent "boom" := by
  rfl

/-! ### C3/C4: tool execution, special tools, error observations -/

lemma is_special_tool_congr (a b : Agent) (n : String)
    (h : a.special_tool_names = b.special_tool_names) :
    is_special_tool a n = is_special_tool b n := by
  unfold is_special_tool
  rw [h]

lemma handle_special_tool_special (a : Agent) (n : String) (h : is_special_tool a n = true) :
    handle_special_tool a n = { a with state := AgentState.FINISHED } := by
  unfold handle_special_tool
  rw [if_pos h]
  rfl

lemma handle_special_tool_normal (a : Agent) (n : String) (h : is_special_tool a n = false) :
    handle_special_tool a n = a := by
  unfold handle_special_tool
  rw [if_neg (by rw [h]; simp)]

lemma execute_tool_unknown (env : ToolEnv) (a : Agent) (cmd : ToolCall)
    (hname : cmd.function.name.isEmpty = false)
    (hreg : env.toolNames.contains cmd.function.name = false) :
    execute_tool env a cmd = (a, "Error: Unknown tool '" ++ cmd.function.name ++ "'") := by
  unfold execute_tool
  rw [if_neg (by rw [hname]; simp), if_pos (by rw [hreg]; simp)]

lemma execute_tool_parse_error (env : ToolEnv) (a : Agent) (cmd : ToolCall)
    (hname : cmd.function.name.isEmpty = false)
    (hreg : env.toolNames.contains cmd.function.name = true)
    (hparse : env.parseOk (arg_text cmd) = false) :
    execute_tool env a cmd =
      (a, "Error: Error parsing arguments for " ++ cmd.function.name ++ ": Invalid JSON format") := by
  unfold execute_tool
  rw [if_neg (by rw [hname]; simp), if_neg (by rw [hreg]; simp), if_pos (by rw [hparse]; simp)]

lemma execute_tool_raises (env : ToolEnv) (a : Agent) (cmd : ToolCall) (m : String)
    (hname : cmd.function.name.isEmpty = false)
    (hreg : env.toolNames.contains cmd.function.name = true)
    (hparse : env.parseOk (arg_text cmd) = true)
    (hrun : env.runTool cmd.function.name (arg_text cmd) = ToolOutcome.raises m) :
    execute_tool env a cmd =
      (a, "Error: ⚠️ Tool '" ++ cmd.function.name ++ "' encountered a problem: " ++ m) := by
  unfold execute_tool
  rw [if_neg (by rw [hname]; simp), if_neg (by rw [hreg]; simp), if_neg (by rw [hparse]; simp),
    hrun]

lemma execute_tool_ok (env : ToolEnv) (a : Agent) (cmd : ToolCall) (out : String)
    (img : Option String)
    (hname : cmd.function.name.isEmpty = false)
    (hreg : env.toolNames.contains cmd.function.name = true)
    (hparse : env.parseOk (arg_text cmd) = true)
    (hrun : env.runTool cmd.function.name (arg_text cmd) = ToolOutcome.ok out img) :
    execute_tool env a cmd =
      ((if img_truthy img = true
        then { handle_special_tool a cmd.function.name with current_base64_image := img }
        else handle_special_tool a cmd.function.name),
       format_observation cmd.function.name out img) := by
  unfold execute_tool
  rw [if_neg (by rw [hname]; simp), if_neg (by rw [hreg]; simp), if_neg (by rw [hparse]; simp),
    hrun]

lemma act_single (env : ToolEnv) (a : Agent) (cmd : ToolCall) (hcalls : a.tool_calls = [cmd]) :
    act env a = Except.ok ((act_loop env a [cmd] []).1,
      String.intercalate "\n\n" (act_loop env a [cmd] []).2) := by
  unfold act
  rw [hcalls, if_neg (by simp)]

lemma act_loop_single_special (env : ToolEnv) (a : Agent) (cmd : ToolCall)
    (h : is_special_tool (execute_tool env { a with current_base64_image := none } cmd).1
      cmd.function.name = true) :
    act_loop env a [cmd] [] =
      ((execute_tool env { a with current_base64_image := none } cmd).1, []) := by
  simp only [act_loop]
  rw [if_pos h]

lemma act_loop_single_normal (env : ToolEnv) (a : Agent) (cmd : ToolCall)
    (h : is_special_tool (execute_tool env { a with current_base64_image := none } cmd).1
      cmd.function.name = false) :
    act_loop env a [cmd] [] =
      (update_memory_ok (execute_tool env { a with current_base64_image := none } cmd).1 "tool"
        (truncate_observe (execute_tool env { a with current_base64_image := none } cmd).1.max_observe
          (execute_tool env { a with current_base64_image := none } cmd).2)
        (execute_tool env { a with current_base64_image := none } cmd).1.current_base64_image
        ⟨some cmd.id, some cmd.function.name, []⟩ true,
       [truncate_observe (execute_tool env { a with current_base64_image := none } cmd).1.max_observe
          (execute_tool env { a with current_base64_image := none } cmd).2]) := by
  simp only [act_loop]
  rw [if_neg (by rw [h]; simp)]
  rfl

lemma act_single_special_full (env : ToolEnv) (a E : Agent) (cmd : ToolCall) (obs : String)
    (hcalls : a.tool_calls = [cmd])
    (hexec1 : execute_tool env { a with current_base64_image := none } cmd = (E, obs))
    (hsp : is_special_tool E cmd.function.name = true) :
    act env a = Except.ok (E, "") := by
  rw [act_single env a cmd hcalls,
    act_loop_single_special env a cmd (by rw [hexec1]; exact hsp), hexec1]
  rfl

lemma act_single_normal_full (env : ToolEnv) (a E : Agent) (cmd : ToolCall) (obs : String)
    (hcalls : a.tool_calls = [cmd])
    (hexec1 : execute_tool env { a with current_base64_image := none } cmd = (E, obs))
    (hsp : is_special_tool E cmd.function.name = false)
    (hmoE : E.max_observe = none) :
    act env a = Except.ok
      (update_memory_ok E "tool" obs E.current_base64_image
        ⟨some cmd.id, some cmd.function.name, []⟩ true, obs) := by
  rw [act_single env a cmd hcalls,
    act_loop_single_normal env a cmd (by rw [hexec1]; exact hsp), hexec1]
  show Except.ok (update_memory_ok E "tool" (truncate_observe E.max_observe obs)
      E.current_base64_image ⟨some cmd.id, some cmd.function.name, []⟩ true,
      String.intercalate "\n\n" [truncate_observe E.max_observe obs]) = _
  rw [hmoE, show truncate_observe none obs = obs from rfl, intercalate_single]

/-- C3: a tool call whose name matches the configured special set
case-insensitively flips the state to FINISHED (unconditionally, for any
successful result), and neither the assistant message proposing it (think
skips recording when a special tool is among the calls) nor its tool-result
message (act skips recording for special tools) reaches Memory or the
persistence hook, while a non-special tool's result is recorded as a
persisted tool message. -/
theorem C3_special_tool_termination (env : ToolEnv) (a : Agent) (cmd : ToolCall)
    (out : String) (img : Option String) (resp : LLMResponse)
    (hchoice : a.tool_choices ≠ ToolChoice.NONE)
    (hany : resp.tool_calls.any (fun c => is_special_tool a c.function.name) = true)
    (hcalls : a.tool_calls = [cmd])
    (hname : cmd.function.name.isEmpty = false)
    (hreg : env.toolNames.contains cmd.function.name = true)
    (hparse : env.parseOk (arg_text cmd) = true)
    (hrun : env.runTool cmd.function.name (arg_text cmd) = ToolOutcome.ok out img)
    (hhook : a.persistHook = true)
    (hobs : a.max_observe = none) :
    (is_special_tool a cmd.function.name = true →
      ∃ a1, act env a = Except.ok (a1, "") ∧ a1.state = AgentState.FINISHED ∧
        a1.memory = a.memory ∧ a1.persistLog = a.persistLog) ∧
    (is_special_tool a cmd.function.name = false →
      ∃ a1, act env a = Except.ok (a1, format_observation cmd.function.name out img) ∧
        a1.state = a.state ∧
        a1.memory = a.memory.add_message
          (Message.tool_message (format_observation cmd.function.name out img)
            (if img_truthy img = true then img else none) (some cmd.id) (some cmd.function.name)) ∧
        a1.persistLog = a.persistLog ++
          [⟨"tool", format_observation cmd.function.name out img,
            (if img_truthy img = true then img else none),
            ⟨some cmd.id, some cmd.function.name, []⟩⟩]) ∧
    (∃ a1, think a (AskOutcome.ok (some resp)) = ThinkResult.ret a1 true ∧
      a1.state = a.state ∧ a1.persistLog = a.persistLog ∧
      a1.memory = (inject_next_step a).memory) := by
  obtain ⟨hist, hilog, _, hich, hisp, _⟩ := inject_fields a
  refine ⟨?_, ?_, ?_⟩
  · intro hsp
    by_cases himg : img_truthy img = true
    · have hexec1 : execute_tool env { a with current_base64_image := none } cmd =
          ({ a with current_base64_image := img, state := AgentState.FINISHED },
           format_observation cmd.function.name out img) := by
        rw [execute_tool_ok env _ cmd out img hname hreg hparse hrun, if_pos himg,
          handle_special_tool_special { a with current_base64_image := none } _
            ((is_special_tool_congr { a with current_base64_image := none } a _ rfl).trans hsp)]
      exact ⟨_, act_single_special_full env a _ cmd _ hcalls hexec1
        ((is_special_tool_congr _ a _ rfl).trans hsp), rfl, rfl, rfl⟩
    · have hexec1 : execute_tool env { a with current_base64_image := none } cmd =
          ({ a with current_base64_image := none, state := AgentState.FINISHED },
           format_observation cmd.function.name out img) := by
        rw [execute_tool_ok env _ cmd out img hname hreg hparse hrun, if_neg himg,
          handle_special_tool_special { a with current_base64_image := none } _
            ((is_special_tool_congr { a with current_base64_image := none } a _ rfl).trans hsp)]
      exact ⟨_, act_single_special_full env a _ cmd _ hcalls hexec1
        ((is_special_tool_congr _ a _ rfl).trans hsp), rfl, rfl, rfl⟩
  · intro hsp
    by_cases himg : img_truthy img = true
    · have hexec1 : execute_tool env { a with current_base64_image := none } cmd =
          ({ a with current_base64_image := img },
           format_observation cmd.function.name out img) := by
        rw [execute_tool_ok env _ cmd out img hname hreg hparse hrun, if_pos himg,
          handle_special_tool_normal { a with current_base64_image := none } _
            ((is_special_tool_congr { a with current_base64_image := none } a _ rfl).trans hsp)]
      refine ⟨_, act_single_normal_full env a _ cmd _ hcalls hexec1
        ((is_special_tool_congr _ a _ rfl).trans hsp) hobs, ?_, ?_, ?_⟩
      · rw [update_memory_ok_norm _ _ _ _ _ _ (by decide)]
      · rw [update_memory_ok_norm _ _ _ _ _ _ (by decide), build_message_tool, if_pos himg]
      · rw [update_memory_ok_norm _ _ _ _ _ _ (by decide), if_pos himg]
        show (if (true && ({ a with current_base64_image := img } : Agent).persistHook) = true
          then _ else _) = _
        rw [show ({ a with current_base64_image := img } : Agent).persistHook = true from hhook]
        rfl
    · have hexec1 : execute_tool env { a with current_base64_image := none } cmd =
          ({ a with current_base64_image := none },
           format_observation cmd.function.name out img) := by
        rw [execute_tool_ok env _ cmd out img hname hreg hparse hrun, if_neg himg,
          handle_special_tool_normal { a with current_base64_image := none } _
            ((is_special_tool_congr { a with current_base64_image := none } a _ rfl).trans hsp)]
      refine ⟨_, act_single_normal_full env a _ cmd _ hcalls hexec1
        ((is_special_tool_congr _ a _ rfl).trans hsp) hobs, ?_, ?_, ?_⟩
      · rw [update_memory_ok_norm _ _ _ _ _ _ (by decide)]
      · rw [update_memory_ok_norm _ _ _ _ _ _ (by decide), build_message_tool, if_neg himg]
      · rw [update_memory_ok_norm _ _ _ _ _ _ (by decide), if_neg himg]
        show (if (true && ({ a with current_base64_image := none } : Agent).persistHook) = true
          then _ else _) = _
        rw [show ({ a with current_base64_image := none } : Agent).persistHook = true from hhook]
        rfl
  · have hne : resp.tool_calls ≠ [] := by
      intro h0
      rw [h0] at hany
      simp at hany
    have hanyA1 : resp.tool_calls.any (fun c =>
        is_special_tool { inject_next_step a with tool_calls := resp.tool_calls }
          c.function.name) = true := by
      have hfn : (fun c : ToolCall =>
          is_special_tool { inject_next_step a with tool_calls := resp.tool_calls }
            c.function.name) = (fun c => is_special_tool a c.function.name) :=
        funext (fun c => is_special_tool_congr _ a _ hisp)
      rw [hfn]
      exact hany
    have hbool : resp.tool_calls.isEmpty = false := by
      cases h0 : resp.tool_calls with
      | nil => exact absurd h0 hne
      | cons x xs => rfl
    refine ⟨{ inject_next_step a with tool_calls := resp.tool_calls }, ?_, hist, hilog, rfl⟩
    simp only [think]
    rw [if_neg (fun hcc => hchoice (by
        rw [show ({ inject_next_step a with tool_calls := resp.tool_calls } : Agent).tool_choices
          = a.tool_choices from hich] at hcc
        exact hcc))]
    rw [if_neg (fun hcc => hne hcc.2)]
    rw [if_neg (fun hcc => hne hcc.2)]
    rw [if_pos hanyA1, hbool]
    rfl

/-- C4: `execute_tool` never raises — an unknown tool name, unparsable JSON
arguments and a tool-internal exception each become a textual "Error..."
observation returned as the result (the function is total by construction),
and in the Act phase that observation is recorded as a tool-role message
carrying the originating call's id and tool name, and persisted. -/
theorem C4_execute_tool_error_observations (env : ToolEnv) (a : Agent) (cmd : ToolCall)
    (m : String) :
    (cmd.function.name.isEmpty = false → env.toolNames.contains cmd.function.name = false →
      execute_tool env a cmd = (a, "Error: Unknown tool '" ++ cmd.function.name ++ "'")) ∧
    (cmd.function.name.isEmpty = false → env.toolNames.contains cmd.function.name = true →
      env.parseOk (arg_text cmd) = false →
      execute_tool env a cmd =
        (a, "Error: Error parsing arguments for " ++ cmd.function.name ++ ": Invalid JSON format")) ∧
    (cmd.function.name.isEmpty = false → env.toolNames.contains cmd.function.name = true →
      env.parseOk (arg_text cmd) = true →
      env.runTool cmd.function.name (arg_text cmd) = ToolOutcome.raises m →
      execute_tool env a cmd =
        (a, "Error: ⚠️ Tool '" ++ cmd.function.name ++ "' encountered a problem: " ++ m)) ∧
    (cmd.function.name.isEmpty = false → env.toolNames.contains cmd.function.name = true →
      env.parseOk (arg_text cmd) = false →
      a.tool_calls = [cmd] → is_special_tool a cmd.function.name = false →
      a.persistHook = true → a.max_observe = none →
      ∃ a1, act env a = Except.ok
          (a1, "Error: Error parsing arguments for " ++ cmd.function.name ++ ": Invalid JSON format") ∧
        a1.memory = a.memory.add_message
          (Message.tool_message
            ("Error: Error parsing arguments for " ++ cmd.function.name ++ ": Invalid JSON format")
            none (some cmd.id) (some cmd.function.name)) ∧
        a1.persistLog = a.persistLog ++
          [⟨"tool",
            "Error: Error parsing arguments for " ++ cmd.function.name ++ ": Invalid JSON format",
            none, ⟨some cmd.id, some cmd.function.name, []⟩⟩]) := by
  refine ⟨execute_tool_unknown env a cmd, execute_tool_parse_error env a cmd,
    execute_tool_raises env a cmd m, ?_⟩
  intro hname hreg hparse hcalls hsp hhook hobs
  have hexec1 : execute_tool env { a with current_base64_image := none } cmd =
      ({ a with current_base64_image := none },
       "Error: Error parsing arguments for " ++ cmd.function.name ++ ": Invalid JSON format") :=
    execute_tool_parse_error env _ cmd hname hreg hparse
  refine ⟨_, act_single_normal_full env a _ cmd _ hcalls hexec1
    ((is_special_tool_congr _ a _ rfl).trans hsp) hobs, ?_, ?_⟩
  · rw [update_memory_ok_norm _ _ _ _ _ _ (by decide), build_message_tool]
  · rw [update_memory_ok_norm _ _ _ _ _ _ (by decide)]
    show (if (true && ({ a with current_base64_image := none } : Agent).persistHook) = true
      then _ else _) = _
    rw [show ({ a with current_base64_image := none } : Agent).persistHook = true from hhook]
    rfl

/-- Witness for `C10_run_restores_idle` on a one-step run. -/
theorem C10_run_restores_idle_witness :
    ∃ a1 s, run (fun x => (x, "ok")) { egAgent with max_steps := 1 } none = Except.ok (a1, s) ∧
      a1.state = AgentState.IDLE ∧
      (let b := (run_loop (fun x => (x, "ok"))
          ((apply_request { egAgent with max_steps := 1 } none).max_steps -
            (apply_request { egAgent with max_steps := 1 } none).current_step)
          { apply_request { egAgent with max_steps := 1 } none with state := AgentState.RUNNING } []).1
       (b.max_steps ≤ b.current_step → a1.current_step = 0) ∧
       (b.current_step < b.max_steps → a1.current_step = b.current_step)) :=
  C10_run_restores_idle (fun x => (x, "ok")) { egAgent with max_steps := 1 } none rfl

/-- Witness for `C3_special_tool_termination`: executing `terminate` finishes
the run and leaves Memory and the persisted history untouched, and the think
phase proposing it records nothing. -/
theorem C3_special_tool_termination_witness :
    (∃ a1, act egEnv { egAgent with tool_calls := [egCmdTerm] } = Except.ok (a1, "") ∧
      a1.state = AgentState.FINISHED ∧
      a1.memory = ({ egAgent with tool_calls := [egCmdTerm] } : Agent).memory ∧
      a1.persistLog = ({ egAgent with tool_calls := [egCmdTerm] } : Agent).persistLog) ∧
    (∃ a1, think { egAgent with tool_calls := [egCmdTerm] }
        (AskOutcome.ok (some ⟨some "wrapping up", [egCmdTerm]⟩)) = ThinkResult.ret a1 true ∧
      a1.state = ({ egAgent with tool_calls := [egCmdTerm] } : Agent).state ∧
      a1.persistLog = ({ egAgent with tool_calls := [egCmdTerm] } : Agent).persistLog ∧
      a1.memory = (inject_next_step { egAgent with tool_calls := [egCmdTerm] }).memory) :=
  ⟨(C3_special_tool_termination egEnv { egAgent with tool_calls := [egCmdTerm] } egCmdTerm
      "done" none ⟨some "wrapping up", [egCmdTerm]⟩ (by decide) (by decide) rfl rfl (by decide)
      rfl rfl rfl rfl).1 (by decide),
   (C3_special_tool_termination egEnv { egAgent with tool_calls := [egCmdTerm] } egCmdTerm
      "done" none ⟨some "wrapping up", [egCmdTerm]⟩ (by decide) (by decide) rfl rfl (by decide)
      rfl rfl rfl rfl).2.2⟩

/-- Witness for `C4_execute_tool_error_observations` on each error kind, plus
the recording of the bad-JSON observation as a persisted tool message. -/
theorem C4_execute_tool_error_observations_witness :
    execute_tool egEnv egAgent egCmdUnknown =
      (egAgent, "Error: Unknown tool '" ++ egCmdUnknown.function.name ++ "'") ∧
    execute_tool egEnv egAgent egCmdBadJson =
      (egAgent, "Error: Error parsing arguments for " ++ egCmdBadJson.function.name ++
        ": Invalid JSON format") ∧
    execute_tool egEnv egAgent egCmdBoom =
      (egAgent, "Error: ⚠️ Tool '" ++ egCmdBoom.function.name ++
        "' encountered a problem: " ++ "kaboom") ∧
    (∃ a1, act egEnv { egAgent with tool_calls := [egCmdBadJson] } = Except.ok
        (a1, "Error: Error parsing arguments for " ++ egCmdBadJson.function.name ++
          ": Invalid JSON format") ∧
      a1.memory = ({ egAgent with tool_calls := [egCmdBadJson] } : Agent).memory.add_message
        (Message.tool_message
          ("Error: Error parsing arguments for " ++ egCmdBadJson.function.name ++
            ": Invalid JSON format")
          none (some egCmdBadJson.id) (some egCmdBadJson.function.name)) ∧
      a1.persistLog = ({ egAgent with tool_calls := [egCmdBadJson] } : Agent).persistLog ++
        [⟨"tool",
          "Error: Error parsing arguments for " ++ egCmdBadJson.function.name ++
            ": Invalid JSON format",
          none, ⟨some egCmdBadJson.id, some egCmdBadJson.function.name, []⟩⟩]) :=
  ⟨(C4_execute_tool_error_observations egEnv egAgent egCmdUnknown "kaboom").1 rfl (by decide),
   (C4_execute_tool_error_observations egEnv egAgent egCmdBadJson "kaboom").2.1 rfl
     (by decide) rfl,
   (C4_execute_tool_error_observations egEnv egAgent egCmdBoom "kaboom").2.2.1 rfl
     (by decide) rfl rfl,
   (C4_execute_tool_error_observations egEnv { egAgent with tool_calls := [egCmdBadJson] }
     egCmdBadJson "kaboom").2.2.2 rfl (by decide) rfl rfl (by decide) rfl rfl⟩

end Manus
